import Mathlib

/-!
Verification of the settings module of the bme680-hal repository
(src/settings.rs), shallowly embedded in Lean 4.

Machine integers (`u8`, `u16`, `i8`) are modelled as `Nat` / `Int`: the
module only stores values and takes bitwise unions of `u16` flag
constants below `2^16`, so no overflow can occur and no reduction
modulo `2^w` is needed.  `core::time::Duration` is opaque to this
module (it is only stored, never inspected), and is modelled as a
number of nanoseconds; `Duration.from_millis` builds one from
milliseconds.  A Rust `panic!` is modelled as `Option.none`.
-/

/-- Rust `core::time::Duration`, modelled as nanoseconds. -/
def Duration : Type := Nat

/-- DecidableEq for the Duration model. -/
instance : DecidableEq Duration := Nat.decEq

/-- Repr for the Duration model. -/
instance : Repr Duration := inferInstanceAs (Repr Nat)

/-- Build a Duration from milliseconds (Rust `Duration::from_millis`). -/
def Duration.from_millis (ms : Nat) : Duration := ms * 1000000

/-- The `OversamplingSetting` enum of settings.rs. -/
inductive OversamplingSetting : Type where
  | OSNone : OversamplingSetting
  | OS1x : OversamplingSetting
  | OS2x : OversamplingSetting
  | OS4x : OversamplingSetting
  | OS8x : OversamplingSetting
  | OS16x : OversamplingSetting
deriving DecidableEq, Repr

/-- The `#[repr(u8)]` discriminant of each `OversamplingSetting` variant. -/
def OversamplingSetting.discriminant : OversamplingSetting → Nat
  | .OSNone => 0
  | .OS1x => 1
  | .OS2x => 2
  | .OS4x => 3
  | .OS8x => 4
  | .OS16x => 5

/-- `OversamplingSetting::from_u8`.  The Rust function panics on inputs
outside `0..=5`; the panic is modelled as `none`. -/
def OversamplingSetting.from_u8 (os : Nat) : Option OversamplingSetting :=
  match os with
  | 0 => some OversamplingSetting.OSNone
  | 1 => some OversamplingSetting.OS1x
  | 2 => some OversamplingSetting.OS2x
  | 3 => some OversamplingSetting.OS4x
  | 4 => some OversamplingSetting.OS8x
  | 5 => some OversamplingSetting.OS16x
  | _ => none

/-- The `TphSett` struct of settings.rs. -/
structure TphSett : Type where
  os_hum : Option OversamplingSetting
  os_temp : Option OversamplingSetting
  os_pres : Option OversamplingSetting
  filter : Option Nat
deriving DecidableEq, Repr

/-- `Default` for `TphSett` (derived in the source: every field default). -/
def TphSett.default : TphSett :=
  { os_hum := none, os_temp := none, os_pres := none, filter := none }

/-- The `GasSett` struct of settings.rs. -/
structure GasSett : Type where
  nb_conv : Nat
  heatr_ctrl : Option Nat
  run_gas_measurement : Bool
  heatr_temp : Option Nat
  heatr_dur : Option Duration
  ambient_temperature : Int
deriving DecidableEq, Repr

/-- `Default` for `GasSett` (derived in the source: every field default). -/
def GasSett.default : GasSett :=
  { nb_conv := 0, heatr_ctrl := none, run_gas_measurement := false,
    heatr_temp := none, heatr_dur := none, ambient_temperature := 0 }

/-- The `SensorSettings` struct of settings.rs. -/
structure SensorSettings : Type where
  gas_sett : GasSett
  tph_sett : TphSett
deriving DecidableEq, Repr

/-- `Default` for `SensorSettings` (derived in the source). -/
def SensorSettings.default : SensorSettings :=
  { gas_sett := GasSett.default, tph_sett := TphSett.default }

/-- The `DesiredSensorSettings` bitflags value: a `u16` bitmask. -/
def DesiredSensorSettings : Type := Nat

/-- DecidableEq for the mask model. -/
instance : DecidableEq DesiredSensorSettings := Nat.decEq

/-- To set temperature oversampling. -/
def DesiredSensorSettings.OST_SEL : Nat := 1

/-- To set pressure oversampling. -/
def DesiredSensorSettings.OSP_SEL : Nat := 2

/-- To set humidity oversampling. -/
def DesiredSensorSettings.OSH_SEL : Nat := 4

/-- To set gas measurement setting. -/
def DesiredSensorSettings.GAS_MEAS_SEL : Nat := 8

/-- To set filter setting. -/
def DesiredSensorSettings.FILTER_SEL : Nat := 16

/-- To set humidity control setting. -/
def DesiredSensorSettings.HCNTRL_SEL : Nat := 32

/-- To set run gas setting. -/
def DesiredSensorSettings.RUN_GAS_SEL : Nat := 64

/-- To set NB conversion setting. -/
def DesiredSensorSettings.NBCONV_SEL : Nat := 128

/-- To set all gas sensor related settings
(`GAS_MEAS_SEL.bits | RUN_GAS_SEL.bits | NBCONV_SEL.bits` in the source). -/
def DesiredSensorSettings.GAS_SENSOR_SEL : Nat :=
  DesiredSensorSettings.GAS_MEAS_SEL ||| DesiredSensorSettings.RUN_GAS_SEL |||
    DesiredSensorSettings.NBCONV_SEL

/-- The bitflags `contains` test: every bit of `flag` is set in `m`. -/
def DesiredSensorSettings.contains (m flag : Nat) : Bool :=
  m &&& flag == flag

/-- The bitflags `intersects` test: `m` and `flag` share at least one bit. -/
def DesiredSensorSettings.intersects (m flag : Nat) : Bool :=
  m &&& flag != 0

/-- The `SettingsBuilder` struct of settings.rs. -/
structure SettingsBuilder : Type where
  desired_settings : Nat
  sensor_settings : SensorSettings
deriving DecidableEq, Repr

/-- The `Settings` type alias: `(SensorSettings, DesiredSensorSettings)`. -/
def Settings : Type := SensorSettings × Nat

/-- `SettingsBuilder::new`. -/
def SettingsBuilder.new : SettingsBuilder :=
  { desired_settings := 0, sensor_settings := SensorSettings.default }

/-- `SettingsBuilder::with_temperature_filter`. -/
def SettingsBuilder.with_temperature_filter (self : SettingsBuilder) (filter : Nat) :
    SettingsBuilder :=
  { self with
      sensor_settings := { self.sensor_settings with
        tph_sett := { self.sensor_settings.tph_sett with filter := some filter } },
      desired_settings := self.desired_settings ||| DesiredSensorSettings.FILTER_SEL }

/-- `SettingsBuilder::with_humidity_control`. -/
def SettingsBuilder.with_humidity_control (self : SettingsBuilder) (heatr_control : Nat) :
    SettingsBuilder :=
  { self with
      sensor_settings := { self.sensor_settings with
        gas_sett := { self.sensor_settings.gas_sett with heatr_ctrl := some heatr_control } },
      desired_settings := self.desired_settings ||| DesiredSensorSettings.HCNTRL_SEL }

/-- `SettingsBuilder::with_temperature_oversampling`. -/
def SettingsBuilder.with_temperature_oversampling (self : SettingsBuilder)
    (os_temp : OversamplingSetting) : SettingsBuilder :=
  { self with
      sensor_settings := { self.sensor_settings with
        tph_sett := { self.sensor_settings.tph_sett with os_temp := some os_temp } },
      desired_settings := self.desired_settings ||| DesiredSensorSettings.OST_SEL }

/-- `SettingsBuilder::with_pressure_oversampling`. -/
def SettingsBuilder.with_pressure_oversampling (self : SettingsBuilder)
    (os_pres : OversamplingSetting) : SettingsBuilder :=
  { self with
      sensor_settings := { self.sensor_settings with
        tph_sett := { self.sensor_settings.tph_sett with os_pres := some os_pres } },
      desired_settings := self.desired_settings ||| DesiredSensorSettings.OSP_SEL }

/-- `SettingsBuilder::with_humidity_oversampling`. -/
def SettingsBuilder.with_humidity_oversampling (self : SettingsBuilder)
    (os_hum : OversamplingSetting) : SettingsBuilder :=
  { self with
      sensor_settings := { self.sensor_settings with
        tph_sett := { self.sensor_settings.tph_sett with os_hum := some os_hum } },
      desired_settings := self.desired_settings ||| DesiredSensorSettings.OSH_SEL }

/-- `SettingsBuilder::with_gas_measurement`. -/
def SettingsBuilder.with_gas_measurement (self : SettingsBuilder) (heatr_dur : Duration)
    (heatr_temp : Nat) (ambient_temperature : Int) : SettingsBuilder :=
  { self with
      sensor_settings := { self.sensor_settings with
        gas_sett := { self.sensor_settings.gas_sett with
          heatr_dur := some heatr_dur,
          heatr_temp := some heatr_temp,
          ambient_temperature := ambient_temperature } },
      desired_settings := self.desired_settings ||| DesiredSensorSettings.RUN_GAS_SEL }

/-- `SettingsBuilder::with_nb_conv`. -/
def SettingsBuilder.with_nb_conv (self : SettingsBuilder) (nb_conv : Nat) : SettingsBuilder :=
  { self with
      sensor_settings := { self.sensor_settings with
        gas_sett := { self.sensor_settings.gas_sett with nb_conv := nb_conv } },
      desired_settings := self.desired_settings ||| DesiredSensorSettings.NBCONV_SEL }

/-- `SettingsBuilder::with_run_gas`. -/
def SettingsBuilder.with_run_gas (self : SettingsBuilder) (run_gas : Bool) : SettingsBuilder :=
  { self with
      sensor_settings := { self.sensor_settings with
        gas_sett := { self.sensor_settings.gas_sett with run_gas_measurement := run_gas } },
      desired_settings := self.desired_settings ||| DesiredSensorSettings.RUN_GAS_SEL }

/-- `SettingsBuilder::build`. -/
def SettingsBuilder.build (self : SettingsBuilder) : Settings :=
  (self.sensor_settings, self.desired_settings)

/-- One builder operation together with its argument(s): the eight
`with_*` methods of `SettingsBuilder`. -/
inductive Op : Type where
  | with_temperature_filter (filter : Nat) : Op
  | with_humidity_control (heatr_control : Nat) : Op
  | with_temperature_oversampling (os_temp : OversamplingSetting) : Op
  | with_pressure_oversampling (os_pres : OversamplingSetting) : Op
  | with_humidity_oversampling (os_hum : OversamplingSetting) : Op
  | with_gas_measurement (heatr_dur : Duration) (heatr_temp : Nat)
      (ambient_temperature : Int) : Op
  | with_nb_conv (nb_conv : Nat) : Op
  | with_run_gas (run_gas : Bool) : Op

/-- Apply one builder operation to a builder. -/
def applyOp (b : SettingsBuilder) : Op → SettingsBuilder
  | .with_temperature_filter f => b.with_temperature_filter f
  | .with_humidity_control h => b.with_humidity_control h
  | .with_temperature_oversampling os => b.with_temperature_oversampling os
  | .with_pressure_oversampling os => b.with_pressure_oversampling os
  | .with_humidity_oversampling os => b.with_humidity_oversampling os
  | .with_gas_measurement d t a => b.with_gas_measurement d t a
  | .with_nb_conv n => b.with_nb_conv n
  | .with_run_gas r => b.with_run_gas r

/-- Apply a sequence of builder operations, left to right. -/
def applyOps (b : SettingsBuilder) (ops : List Op) : SettingsBuilder :=
  ops.foldl applyOp b

/-- The mask bits that each builder operation unions into the mask
(the table of §4.2 of the specification, read off the source). -/
def opMask : Op → Nat
  | .with_temperature_filter _ => DesiredSensorSettings.FILTER_SEL
  | .with_humidity_control _ => DesiredSensorSettings.HCNTRL_SEL
  | .with_temperature_oversampling _ => DesiredSensorSettings.OST_SEL
  | .with_pressure_oversampling _ => DesiredSensorSettings.OSP_SEL
  | .with_humidity_oversampling _ => DesiredSensorSettings.OSH_SEL
  | .with_gas_measurement _ _ _ => DesiredSensorSettings.RUN_GAS_SEL
  | .with_nb_conv _ => DesiredSensorSettings.NBCONV_SEL
  | .with_run_gas _ => DesiredSensorSettings.RUN_GAS_SEL

/-- Each operation unions exactly `opMask` into the mask. -/
theorem applyOp_desired (b : SettingsBuilder) (op : Op) :
    (applyOp b op).desired_settings = b.desired_settings ||| opMask op := by
  cases op <;> rfl

/-- Each operation leaves the mask's other bits as they were: testBit
after one operation is testBit before, or-ed with the operation's bit. -/
theorem applyOp_testBit (b : SettingsBuilder) (op : Op) (i : Nat) :
    Nat.testBit (applyOp b op).desired_settings i =
      (Nat.testBit b.desired_settings i || Nat.testBit (opMask op) i) := by
  rw [applyOp_desired, Nat.testBit_lor]

/-- Bit characterisation of a whole operation sequence. -/
theorem applyOps_testBit (ops : List Op) (b : SettingsBuilder) (i : Nat) :
    Nat.testBit (applyOps b ops).desired_settings i =
      (Nat.testBit b.desired_settings i || ops.any (fun op => Nat.testBit (opMask op) i)) := by
  induction ops generalizing b with
  | nil => simp [applyOps]
  | cons op rest ih =>
      have h1 : applyOps b (op :: rest) = applyOps (applyOp b op) rest := rfl
      rw [h1, ih, applyOp_testBit]
      simp [List.any_cons, Bool.or_assoc]

/-- Oring the same mask constant in twice is the same as once. -/
theorem lor_lor_self (x m : Nat) : x ||| m ||| m = x ||| m := by
  apply Nat.eq_of_testBit_eq
  intro i
  simp [Nat.testBit_lor, Bool.or_assoc]

/-- No builder operation sets bit 3 (the `GAS_MEAS_SEL` bit) of the mask. -/
theorem opMask_testBit_three (op : Op) : Nat.testBit (opMask op) 3 = false := by
  cases op <;> simp only [opMask] <;> decide

/-- Claim C1: for every sequence of builder operations followed by build,
a bit is set in the resulting mask if and only if at least one operation
in the sequence has that bit among its mask bits, independent of order. -/
theorem C1_mask_bit_iff_invoked (ops : List Op) (i : Nat) :
    Nat.testBit (applyOps SettingsBuilder.new ops).build.2 i = true ↔
      ∃ op ∈ ops, Nat.testBit (opMask op) i = true := by
  have h : (applyOps SettingsBuilder.new ops).build.2 =
      (applyOps SettingsBuilder.new ops).desired_settings := rfl
  rw [h, applyOps_testBit]
  simp [SettingsBuilder.new, List.any_eq_true]

/-- Claim C2: the eight named mask flags have values 1, 2, 4, 8, 16, 32,
64, 128 in the order OST, OSP, OSH, GAS_MEAS, FILTER, HCNTRL, RUN_GAS,
NBCONV, and `GAS_SENSOR_SEL` is the bitwise union of `GAS_MEAS_SEL`,
`RUN_GAS_SEL` and `NBCONV_SEL` (numerically 200). -/
theorem C2_flag_values :
    DesiredSensorSettings.OST_SEL = 1 ∧
    DesiredSensorSettings.OSP_SEL = 2 ∧
    DesiredSensorSettings.OSH_SEL = 4 ∧
    DesiredSensorSettings.GAS_MEAS_SEL = 8 ∧
    DesiredSensorSettings.FILTER_SEL = 16 ∧
    DesiredSensorSettings.HCNTRL_SEL = 32 ∧
    DesiredSensorSettings.RUN_GAS_SEL = 64 ∧
    DesiredSensorSettings.NBCONV_SEL = 128 ∧
    DesiredSensorSettings.GAS_SENSOR_SEL =
      (DesiredSensorSettings.GAS_MEAS_SEL ||| DesiredSensorSettings.RUN_GAS_SEL |||
        DesiredSensorSettings.NBCONV_SEL) ∧
    DesiredSensorSettings.GAS_SENSOR_SEL = 200 := by
  decide

/-- Claim C3: `OversamplingSetting::from_u8` panics (modelled `none`) on
every input greater than 5, and maps 0,1,2,3,4,5 bijectively to OSNone,
OS1x, OS2x, OS4x, OS8x, OS16x in that order (each variant is recovered
from its own discriminant, so the map is a bijection onto the six
variants). -/
theorem C3_from_u8_total_on_range (n : Nat) (h : 5 < n) :
    OversamplingSetting.from_u8 n = none ∧
    OversamplingSetting.from_u8 0 = some OversamplingSetting.OSNone ∧
    OversamplingSetting.from_u8 1 = some OversamplingSetting.OS1x ∧
    OversamplingSetting.from_u8 2 = some OversamplingSetting.OS2x ∧
    OversamplingSetting.from_u8 3 = some OversamplingSetting.OS4x ∧
    OversamplingSetting.from_u8 4 = some OversamplingSetting.OS8x ∧
    OversamplingSetting.from_u8 5 = some OversamplingSetting.OS16x ∧
    (∀ a : OversamplingSetting,
      OversamplingSetting.from_u8 a.discriminant = some a) := by
  obtain ⟨m, rfl⟩ : ∃ m, n = m + 6 := ⟨n - 6, by omega⟩
  exact ⟨rfl, rfl, rfl, rfl, rfl, rfl, rfl, by intro a; cases a <;> rfl⟩

/-- Witness for C3 at the concrete input 6. -/
theorem C3_from_u8_total_on_range_witness :
    OversamplingSetting.from_u8 6 = none ∧
    OversamplingSetting.from_u8 0 = some OversamplingSetting.OSNone ∧
    OversamplingSetting.from_u8 1 = some OversamplingSetting.OS1x ∧
    OversamplingSetting.from_u8 2 = some OversamplingSetting.OS2x ∧
    OversamplingSetting.from_u8 3 = some OversamplingSetting.OS4x ∧
    OversamplingSetting.from_u8 4 = some OversamplingSetting.OS8x ∧
    OversamplingSetting.from_u8 5 = some OversamplingSetting.OS16x ∧
    (∀ a : OversamplingSetting,
      OversamplingSetting.from_u8 a.discriminant = some a) :=
  C3_from_u8_total_on_range 6 (by decide)

/-- Claim C4: with_run_gas and with_gas_measurement in either order from
a fresh builder yield a mask equal to exactly the single RUN_GAS_SEL bit
(value 64), since both operations set the same flag. -/
theorem C4_run_gas_overlap (d : Duration) (t : Nat) (a : Int) (r : Bool) :
    ((SettingsBuilder.new.with_run_gas r).with_gas_measurement d t a).build.2 =
      DesiredSensorSettings.RUN_GAS_SEL ∧
    ((SettingsBuilder.new.with_gas_measurement d t a).with_run_gas r).build.2 =
      DesiredSensorSettings.RUN_GAS_SEL ∧
    DesiredSensorSettings.RUN_GAS_SEL = 64 := by
  refine ⟨?_, ?_, rfl⟩ <;>
    · show (0 ||| 64) ||| 64 = 64
      decide

/-- Counterexample for claim C5: contrary to the claim's premise, there
is no builder operation that sets the gas-measurement-enable bit
`GAS_MEAS_SEL` in the mask, so the sequence the claim describes cannot
be produced by builder operations. -/
theorem C5_counterexample :
    ¬ ∃ op : Op, DesiredSensorSettings.contains (opMask op)
      DesiredSensorSettings.GAS_MEAS_SEL = true := by
  rintro ⟨op, h⟩
  cases op <;> simp only [opMask] at h <;> exact absurd h (by decide)

/-- Claim C5 (amended): `GAS_SENSOR_SEL` equals the bitwise union of
`GAS_MEAS_SEL`, `RUN_GAS_SEL` and `NBCONV_SEL`; a mask produced by
with_run_gas alone does not fully contain `GAS_SENSOR_SEL` but does
intersect it; and the mask produced after additionally calling
with_nb_conv, with the `GAS_MEAS_SEL` bit additionally included
directly (no builder operation sets it), fully contains
`GAS_SENSOR_SEL`. -/
theorem C5_gas_sensor_sel_containment (r : Bool) (n : Nat) :
    DesiredSensorSettings.GAS_SENSOR_SEL =
      (DesiredSensorSettings.GAS_MEAS_SEL ||| DesiredSensorSettings.RUN_GAS_SEL |||
        DesiredSensorSettings.NBCONV_SEL) ∧
    DesiredSensorSettings.contains (SettingsBuilder.new.with_run_gas r).build.2
      DesiredSensorSettings.GAS_SENSOR_SEL = false ∧
    DesiredSensorSettings.intersects (SettingsBuilder.new.with_run_gas r).build.2
      DesiredSensorSettings.GAS_SENSOR_SEL = true ∧
    DesiredSensorSettings.contains
      (((SettingsBuilder.new.with_run_gas r).with_nb_conv n).build.2 |||
        DesiredSensorSettings.GAS_MEAS_SEL)
      DesiredSensorSettings.GAS_SENSOR_SEL = true := by
  refine ⟨rfl, ?_, ?_, ?_⟩
  · show DesiredSensorSettings.contains (0 ||| 64) DesiredSensorSettings.GAS_SENSOR_SEL = false
    decide
  · show DesiredSensorSettings.intersects (0 ||| 64) DesiredSensorSettings.GAS_SENSOR_SEL = true
    decide
  · show DesiredSensorSettings.contains ((0 ||| 64 ||| 128) ||| 8)
      DesiredSensorSettings.GAS_SENSOR_SEL = true
    decide

/-- Claim C6: no sequence of builder operations ever sets the
`GAS_MEAS_SEL` bit (bit 3) in the built mask, and consequently no mask
produced solely by builder operations fully contains the composite
`GAS_SENSOR_SEL`. -/
theorem C6_gas_meas_never_set (ops : List Op) :
    Nat.testBit (applyOps SettingsBuilder.new ops).build.2 3 = false ∧
    DesiredSensorSettings.contains (applyOps SettingsBuilder.new ops).build.2
      DesiredSensorSettings.GAS_SENSOR_SEL = false := by
  have hb : Nat.testBit (applyOps SettingsBuilder.new ops).build.2 3 = false := by
    have h : (applyOps SettingsBuilder.new ops).build.2 =
        (applyOps SettingsBuilder.new ops).desired_settings := rfl
    rw [h, applyOps_testBit]
    simp [SettingsBuilder.new, List.any_eq_false, opMask_testBit_three]
  refine ⟨hb, ?_⟩
  have hne : (applyOps SettingsBuilder.new ops).build.2 &&&
      DesiredSensorSettings.GAS_SENSOR_SEL ≠ DesiredSensorSettings.GAS_SENSOR_SEL := by
    intro he
    have ht := congrArg (fun x => Nat.testBit x 3) he
    simp only [Nat.testBit_land, hb, Bool.false_and] at ht
    exact absurd ht.symm (by decide)
  simp only [DesiredSensorSettings.contains]
  exact beq_eq_false_iff_ne.mpr hne

/-- Claim C8: a fresh builder finalized with zero operations yields an
empty mask and a default SensorSettings: all optional fields absent,
nb_conv 0, run_gas_measurement false, ambient_temperature 0. -/
theorem C8_fresh_build_default :
    SettingsBuilder.new.build.2 = 0 ∧
    SettingsBuilder.new.build.1 = SensorSettings.default ∧
    SettingsBuilder.new.build.1.tph_sett.os_hum = none ∧
    SettingsBuilder.new.build.1.tph_sett.os_temp = none ∧
    SettingsBuilder.new.build.1.tph_sett.os_pres = none ∧
    SettingsBuilder.new.build.1.tph_sett.filter = none ∧
    SettingsBuilder.new.build.1.gas_sett.heatr_ctrl = none ∧
    SettingsBuilder.new.build.1.gas_sett.heatr_temp = none ∧
    SettingsBuilder.new.build.1.gas_sett.heatr_dur = none ∧
    SettingsBuilder.new.build.1.gas_sett.nb_conv = 0 ∧
    SettingsBuilder.new.build.1.gas_sett.run_gas_measurement = false ∧
    SettingsBuilder.new.build.1.gas_sett.ambient_temperature = 0 := by
  decide

/-- Claim C9: with_gas_measurement with duration 150 ms, heater
temperature 300 and ambient temperature 25 on a fresh builder, then
build, yields heatr_dur = some 150 ms, heatr_temp = some 300,
ambient_temperature = 25, and a mask equal to exactly RUN_GAS_SEL. -/
theorem C9_gas_measurement_build :
    (SettingsBuilder.new.with_gas_measurement (Duration.from_millis 150) 300 25).build.1.gas_sett.heatr_dur
      = some (Duration.from_millis 150) ∧
    (SettingsBuilder.new.with_gas_measurement (Duration.from_millis 150) 300 25).build.1.gas_sett.heatr_temp
      = some 300 ∧
    (SettingsBuilder.new.with_gas_measurement (Duration.from_millis 150) 300 25).build.1.gas_sett.ambient_temperature
      = 25 ∧
    (SettingsBuilder.new.with_gas_measurement (Duration.from_millis 150) 300 25).build.2
      = DesiredSensorSettings.RUN_GAS_SEL := by
  refine ⟨rfl, rfl, rfl, ?_⟩
  show 0 ||| 64 = 64
  decide


/-- Claim C7: each builder operation writes only its designated
SensorSettings field(s) and unions only its designated mask bit,
leaving every other field and every other mask bit unchanged, and
returns the builder; in particular with_gas_measurement leaves
run_gas_measurement unchanged and with_run_gas leaves heatr_dur,
heatr_temp and ambient_temperature unchanged.  Each operation's result
is characterised as an explicit record whose other fields are copied
verbatim from the input builder. -/
theorem C7_frame_effects (b : SettingsBuilder) (f hc ht nb : Nat)
    (os_t os_p os_h : OversamplingSetting) (d : Duration) (amb : Int) (rg : Bool) :
    b.with_temperature_filter f =
      { desired_settings := b.desired_settings ||| DesiredSensorSettings.FILTER_SEL,
        sensor_settings :=
          { gas_sett := b.sensor_settings.gas_sett,
            tph_sett :=
              { os_hum := b.sensor_settings.tph_sett.os_hum,
                os_temp := b.sensor_settings.tph_sett.os_temp,
                os_pres := b.sensor_settings.tph_sett.os_pres,
                filter := some f } } } ∧
    b.with_humidity_control hc =
      { desired_settings := b.desired_settings ||| DesiredSensorSettings.HCNTRL_SEL,
        sensor_settings :=
          { gas_sett :=
              { nb_conv := b.sensor_settings.gas_sett.nb_conv,
                heatr_ctrl := some hc,
                run_gas_measurement := b.sensor_settings.gas_sett.run_gas_measurement,
                heatr_temp := b.sensor_settings.gas_sett.heatr_temp,
                heatr_dur := b.sensor_settings.gas_sett.heatr_dur,
                ambient_temperature := b.sensor_settings.gas_sett.ambient_temperature },
            tph_sett := b.sensor_settings.tph_sett } } ∧
    b.with_temperature_oversampling os_t =
      { desired_settings := b.desired_settings ||| DesiredSensorSettings.OST_SEL,
        sensor_settings :=
          { gas_sett := b.sensor_settings.gas_sett,
            tph_sett :=
              { os_hum := b.sensor_settings.tph_sett.os_hum,
                os_temp := some os_t,
                os_pres := b.sensor_settings.tph_sett.os_pres,
                filter := b.sensor_settings.tph_sett.filter } } } ∧
    b.with_pressure_oversampling os_p =
      { desired_settings := b.desired_settings ||| DesiredSensorSettings.OSP_SEL,
        sensor_settings :=
          { gas_sett := b.sensor_settings.gas_sett,
            tph_sett :=
              { os_hum := b.sensor_settings.tph_sett.os_hum,
                os_temp := b.sensor_settings.tph_sett.os_temp,
                os_pres := some os_p,
                filter := b.sensor_settings.tph_sett.filter } } } ∧
    b.with_humidity_oversampling os_h =
      { desired_settings := b.desired_settings ||| DesiredSensorSettings.OSH_SEL,
        sensor_settings :=
          { gas_sett := b.sensor_settings.gas_sett,
            tph_sett :=
              { os_hum := some os_h,
                os_temp := b.sensor_settings.tph_sett.os_temp,
                os_pres := b.sensor_settings.tph_sett.os_pres,
                filter := b.sensor_settings.tph_sett.filter } } } ∧
    b.with_gas_measurement d ht amb =
      { desired_settings := b.desired_settings ||| DesiredSensorSettings.RUN_GAS_SEL,
        sensor_settings :=
          { gas_sett :=
              { nb_conv := b.sensor_settings.gas_sett.nb_conv,
                heatr_ctrl := b.sensor_settings.gas_sett.heatr_ctrl,
                run_gas_measurement := b.sensor_settings.gas_sett.run_gas_measurement,
                heatr_temp := some ht,
                heatr_dur := some d,
                ambient_temperature := amb },
            tph_sett := b.sensor_settings.tph_sett } } ∧
    b.with_nb_conv nb =
      { desired_settings := b.desired_settings ||| DesiredSensorSettings.NBCONV_SEL,
        sensor_settings :=
          { gas_sett :=
              { nb_conv := nb,
                heatr_ctrl := b.sensor_settings.gas_sett.heatr_ctrl,
                run_gas_measurement := b.sensor_settings.gas_sett.run_gas_measurement,
                heatr_temp := b.sensor_settings.gas_sett.heatr_temp,
                heatr_dur := b.sensor_settings.gas_sett.heatr_dur,
                ambient_temperature := b.sensor_settings.gas_sett.ambient_temperature },
            tph_sett := b.sensor_settings.tph_sett } } ∧
    b.with_run_gas rg =
      { desired_settings := b.desired_settings ||| DesiredSensorSettings.RUN_GAS_SEL,
        sensor_settings :=
          { gas_sett :=
              { nb_conv := b.sensor_settings.gas_sett.nb_conv,
                heatr_ctrl := b.sensor_settings.gas_sett.heatr_ctrl,
                run_gas_measurement := rg,
                heatr_temp := b.sensor_settings.gas_sett.heatr_temp,
                heatr_dur := b.sensor_settings.gas_sett.heatr_dur,
                ambient_temperature := b.sensor_settings.gas_sett.ambient_temperature },
            tph_sett := b.sensor_settings.tph_sett } } ∧
    (b.with_gas_measurement d ht amb).sensor_settings.gas_sett.run_gas_measurement =
      b.sensor_settings.gas_sett.run_gas_measurement ∧
    (b.with_run_gas rg).sensor_settings.gas_sett.heatr_dur =
      b.sensor_settings.gas_sett.heatr_dur ∧
    (b.with_run_gas rg).sensor_settings.gas_sett.heatr_temp =
      b.sensor_settings.gas_sett.heatr_temp ∧
    (b.with_run_gas rg).sensor_settings.gas_sett.ambient_temperature =
      b.sensor_settings.gas_sett.ambient_temperature := by
  exact ⟨rfl, rfl, rfl, rfl, rfl, rfl, rfl, rfl, rfl, rfl, rfl, rfl⟩
/-- Claim C10: calling the same builder operation a second time
overwrites the previously written field(s) with the new argument and
leaves the mask unchanged from after the first call: applying an
operation twice equals applying it once with the last argument, and
the mask after the second call equals the mask after the first. -/
theorem C10_overwrite_idempotent_mask (b : SettingsBuilder) (f1 f2 hc1 hc2 ht1 ht2 nb1 nb2 : Nat)
    (os1 os2 : OversamplingSetting) (d1 d2 : Duration) (a1 a2 : Int) (r1 r2 : Bool) :
    ((b.with_temperature_filter f1).with_temperature_filter f2 = b.with_temperature_filter f2 ∧
      ((b.with_temperature_filter f1).with_temperature_filter f2).desired_settings =
        (b.with_temperature_filter f1).desired_settings) ∧
    ((b.with_humidity_control hc1).with_humidity_control hc2 = b.with_humidity_control hc2 ∧
      ((b.with_humidity_control hc1).with_humidity_control hc2).desired_settings =
        (b.with_humidity_control hc1).desired_settings) ∧
    ((b.with_temperature_oversampling os1).with_temperature_oversampling os2 =
        b.with_temperature_oversampling os2 ∧
      ((b.with_temperature_oversampling os1).with_temperature_oversampling os2).desired_settings =
        (b.with_temperature_oversampling os1).desired_settings) ∧
    ((b.with_pressure_oversampling os1).with_pressure_oversampling os2 =
        b.with_pressure_oversampling os2 ∧
      ((b.with_pressure_oversampling os1).with_pressure_oversampling os2).desired_settings =
        (b.with_pressure_oversampling os1).desired_settings) ∧
    ((b.with_humidity_oversampling os1).with_humidity_oversampling os2 =
        b.with_humidity_oversampling os2 ∧
      ((b.with_humidity_oversampling os1).with_humidity_oversampling os2).desired_settings =
        (b.with_humidity_oversampling os1).desired_settings) ∧
    ((b.with_gas_measurement d1 ht1 a1).with_gas_measurement d2 ht2 a2 =
        b.with_gas_measurement d2 ht2 a2 ∧
      ((b.with_gas_measurement d1 ht1 a1).with_gas_measurement d2 ht2 a2).desired_settings =
        (b.with_gas_measurement d1 ht1 a1).desired_settings) ∧
    ((b.with_nb_conv nb1).with_nb_conv nb2 = b.with_nb_conv nb2 ∧
      ((b.with_nb_conv nb1).with_nb_conv nb2).desired_settings =
        (b.with_nb_conv nb1).desired_settings) ∧
    ((b.with_run_gas r1).with_run_gas r2 = b.with_run_gas r2 ∧
      ((b.with_run_gas r1).with_run_gas r2).desired_settings =
        (b.with_run_gas r1).desired_settings) := by
  refine ⟨⟨?_, ?_⟩, ⟨?_, ?_⟩, ⟨?_, ?_⟩, ⟨?_, ?_⟩, ⟨?_, ?_⟩, ⟨?_, ?_⟩, ⟨?_, ?_⟩, ⟨?_, ?_⟩⟩ <;>
    simp only [SettingsBuilder.with_temperature_filter, SettingsBuilder.with_humidity_control,
      SettingsBuilder.with_temperature_oversampling, SettingsBuilder.with_pressure_oversampling,
      SettingsBuilder.with_humidity_oversampling, SettingsBuilder.with_gas_measurement,
      SettingsBuilder.with_nb_conv, SettingsBuilder.with_run_gas, lor_lor_self]
